import Mathlib

/-!
# Oblivion: the Windows runner's `FlutterWindow`

A shallow embedding of `windows/runner/flutter_window.cpp`:

* the method-call handler installed on the channel
  `com.oblivion.launcher/system_color` (the lambda of `SetupMethodChannel`),
* the window life cycle `OnCreate` / `SetupMethodChannel` / `OnDestroy`,
* the message routing of `MessageHandler`.

Calls into Win32 and into the Flutter engine are taken from an environment
record; every call the source makes on them is written to a trace of
`Event`s.  A pointer that the source dereferences is an `Option`, and a
dereference of an empty one is a `Fault`.
-/

namespace Oblivion

/-! ## Machine integers -/

/-- The value a `DWORD` (unsigned 32 bit) holds when `n` is stored in it. -/
def DWORD (n : Nat) : Nat := n % 2 ^ 32

/-- The conversion `static_cast<int64_t>(u)` of an unsigned value `u`: the
value modulo `2^64`, read as a two's complement 64 bit integer. -/
def static_cast_int64 (u : Nat) : Int :=
  if u % 2 ^ 64 < 2 ^ 63 then ((u % 2 ^ 64 : Nat) : Int)
  else ((u % 2 ^ 64 : Nat) : Int) - 2 ^ 64

/-- The Win32 test `SUCCEEDED(hr)`, which is `hr >= 0` on the signed `HRESULT`. -/
def SUCCEEDED (hr : Int) : Bool := decide (0 ≤ hr)

/-- The literal `0xFF6750A4` of the source.  A hexadecimal literal that does
not fit `int` has type `unsigned int`, so the literal denotes this value. -/
def fallbackLiteral : Nat := 0xFF6750A4 % 2 ^ 32

/-! ## The bridge: values, calls and replies -/

/-- The alternatives of `flutter::EncodableValue` (a `double` is kept as its
bit pattern). -/
inductive EncodableValue where
  | null
  | bool (b : Bool)
  | int32 (v : Int)
  | int64 (v : Int)
  | double (bits : Nat)
  | string (s : String)
  | list (xs : List EncodableValue)
  | map (kvs : List (EncodableValue × EncodableValue))

/-- A `flutter::MethodCall<EncodableValue>`: the method name and the argument
payload, which may be absent. -/
structure MethodCall where
  method_name : String
  arguments : Option EncodableValue

/-- One invocation on the `flutter::MethodResult` object handed to a handler. -/
inductive ResultCall where
  | Success (value : EncodableValue)
  | Error (code : String) (message : String) (details : Option EncodableValue)
  | NotImplemented

/-- The operating system as the handler sees it.  `DwmGetColorizationColor`
receives the contents of the two out-parameters and gives back the `HRESULT`
together with what the out-parameters hold after the call. -/
structure OS where
  DwmGetColorizationColor : Nat → Bool → Int × Nat × Bool

/-- The lambda passed to `SetMethodCallHandler`.  The result is the sequence
of invocations made on `result`, in order. -/
def methodCallHandler (os : OS) (call : MethodCall) : List ResultCall :=
  if call.method_name = "getAccentColor" then
    let color0 : Nat := DWORD 0
    let blend0 : Bool := false
    let out := os.DwmGetColorizationColor color0 blend0
    let hr : Int := out.1
    let color : Nat := DWORD out.2.1
    if SUCCEEDED hr then
      [ResultCall.Success (EncodableValue.int64 (static_cast_int64 color))]
    else
      [ResultCall.Success (EncodableValue.int64 (static_cast_int64 fallbackLiteral))]
  else
    [ResultCall.NotImplemented]

/-! ## The window -/

/-- A Win32 `RECT`. -/
structure RECT where
  left : Int
  top : Int
  right : Int
  bottom : Int
  deriving DecidableEq, Repr

/-- The engine a view controller owns; `messenger` names its binary messenger. -/
structure FlutterEngine where
  messenger : Nat
  deriving DecidableEq, Repr

/-- The view a view controller owns; `nativeWindow` is its `HWND`. -/
structure FlutterView where
  nativeWindow : Nat
  deriving DecidableEq, Repr

/-- A `flutter::FlutterViewController`.  `engine()` and `view()` give
pointers, which the source tests against null. -/
structure FlutterViewController where
  width : Int
  height : Int
  engine : Option FlutterEngine
  view : Option FlutterView
  deriving DecidableEq, Repr

/-- A `flutter::MethodChannel<EncodableValue>`: the messenger it talks to and
its name. -/
structure MethodChannel where
  messenger : Nat
  name : String
  deriving DecidableEq, Repr

/-- The two owning pointers of the file: the member `flutter_controller_` and
the file-level static `g_system_color_channel`. -/
structure State where
  flutter_controller_ : Option FlutterViewController
  g_system_color_channel : Option MethodChannel
  deriving DecidableEq, Repr

/-- The state at program start: both `unique_ptr`s are null. -/
def State.initial : State := ⟨none, none⟩

/-- The calls the source makes on Win32 and on the engine. -/
inductive Event where
  | Win32Window_OnCreate
  | GetClientArea
  | CreateController (width : Int) (height : Int)
  | RegisterPlugins
  | SetMethodCallHandler (channel : String)
  | SetChildContent (hwnd : Nat)
  | SetNextFrameCallback
  | ForceRedraw
  | Win32Window_OnDestroy
  | HandleTopLevelWindowProc (hwnd : Nat) (message : Nat) (wparam : Nat) (lparam : Int)
  | ReloadSystemFonts
  | Win32Window_MessageHandler (hwnd : Nat) (message : Nat) (wparam : Nat) (lparam : Int)
  deriving DecidableEq, Repr

/-- A dereference of a null pointer. -/
inductive Fault where
  | nullController
  | nullEngine
  | nullView
  deriving DecidableEq, Repr

/-- The expression `flutter_controller_->engine()`. -/
def controllerEngine (s : State) : Except Fault (Option FlutterEngine) :=
  match s.flutter_controller_ with
  | none => Except.error Fault.nullController
  | some c => Except.ok c.engine

/-- The expression `flutter_controller_->view()`. -/
def controllerView (s : State) : Except Fault (Option FlutterView) :=
  match s.flutter_controller_ with
  | none => Except.error Fault.nullController
  | some c => Except.ok c.view

/-- The name of the bridge channel. -/
def channelName : String := "com.oblivion.launcher/system_color"

/-- The function `FlutterWindow::SetupMethodChannel`. -/
def SetupMethodChannel (s : State) : Except Fault (State × List Event) :=
  match controllerEngine s with
  | Except.error f => Except.error f
  | Except.ok none => Except.error Fault.nullEngine
  | Except.ok (some e) =>
    let channel : MethodChannel := ⟨e.messenger, channelName⟩
    Except.ok ({ s with g_system_color_channel := some channel },
      [Event.SetMethodCallHandler channel.name])

/-- What `OnCreate` gets from outside: the result of `Win32Window::OnCreate`,
the client area, and the engine and view the new controller ends up with. -/
structure CreateEnv where
  Win32Window_OnCreate : Bool
  clientArea : RECT
  engine : Option FlutterEngine
  view : Option FlutterView
  deriving DecidableEq, Repr

/-- The function `FlutterWindow::OnCreate`: the returned flag, the state
after the call and the calls made. -/
def OnCreate (env : CreateEnv) (s : State) : Except Fault (Bool × State × List Event) :=
  if !env.Win32Window_OnCreate then
    Except.ok (false, s, [Event.Win32Window_OnCreate])
  else
    let frame := env.clientArea
    let width := frame.right - frame.left
    let height := frame.bottom - frame.top
    let s1 : State :=
      { s with flutter_controller_ := some ⟨width, height, env.engine, env.view⟩ }
    let made := [Event.Win32Window_OnCreate, Event.GetClientArea,
      Event.CreateController width height]
    match controllerEngine s1 with
    | Except.error f => Except.error f
    | Except.ok none => Except.ok (false, s1, made)
    | Except.ok (some _) =>
      match controllerView s1 with
      | Except.error f => Except.error f
      | Except.ok none => Except.ok (false, s1, made)
      | Except.ok (some _) =>
        match SetupMethodChannel s1 with
        | Except.error f => Except.error f
        | Except.ok (s2, setup) =>
          match controllerView s2 with
          | Except.error f => Except.error f
          | Except.ok none => Except.error Fault.nullView
          | Except.ok (some v) =>
            match controllerEngine s2 with
            | Except.error f => Except.error f
            | Except.ok none => Except.error Fault.nullEngine
            | Except.ok (some _) =>
              Except.ok (true, s2,
                made ++ [Event.RegisterPlugins] ++ setup ++
                  [Event.SetChildContent v.nativeWindow, Event.SetNextFrameCallback,
                   Event.ForceRedraw])

/-- The function `FlutterWindow::OnDestroy`. -/
def OnDestroy (s : State) : State × List Event :=
  let s1 : State :=
    if s.flutter_controller_.isSome then { s with flutter_controller_ := none } else s
  (s1, [Event.Win32Window_OnDestroy])

/-- The message number `WM_FONTCHANGE` of `winuser.h`. -/
def WM_FONTCHANGE : Nat := 0x001D

/-- What `MessageHandler` gets from outside: the controller's top-level window
procedure and the base class handler. -/
structure MsgEnv where
  HandleTopLevelWindowProc : Nat → Nat → Nat → Int → Option Int
  Win32Window_MessageHandler : Nat → Nat → Nat → Int → Int

/-- The function `FlutterWindow::MessageHandler`: the `LRESULT` and the calls
made, or the fault of a null dereference. -/
def MessageHandler (env : MsgEnv) (s : State) (hwnd message wparam : Nat) (lparam : Int) :
    Except Fault (Int × List Event) :=
  let offered : Option Int × List Event :=
    match s.flutter_controller_ with
    | some _ =>
      (env.HandleTopLevelWindowProc hwnd message wparam lparam,
        [Event.HandleTopLevelWindowProc hwnd message wparam lparam])
    | none => (none, [])
  match offered with
  | (some result, seen) => Except.ok (result, seen)
  | (none, seen) =>
    let base := env.Win32Window_MessageHandler hwnd message wparam lparam
    let last := [Event.Win32Window_MessageHandler hwnd message wparam lparam]
    if message = WM_FONTCHANGE then
      match controllerEngine s with
      | Except.error f => Except.error f
      | Except.ok none => Except.error Fault.nullEngine
      | Except.ok (some _) => Except.ok (base, seen ++ [Event.ReloadSystemFonts] ++ last)
    else
      Except.ok (base, seen ++ last)

/-! ## Concrete systems, environments and states -/

/-- The query of a system whose accent colour is `0xC40078D4`. -/
def osAccent : OS := ⟨fun _ _ => (0, 0xC40078D4, true)⟩

/-- The query of a system on which the call fails with `E_FAIL`. -/
def osFailing : OS := ⟨fun color blend => (-2147467259, color, blend)⟩

/-- An environment in which window creation goes well. -/
def envGood : CreateEnv := ⟨true, ⟨0, 0, 1280, 720⟩, some ⟨7⟩, some ⟨42⟩⟩

/-- An environment in which `Win32Window::OnCreate` fails. -/
def envBaseFails : CreateEnv := ⟨false, ⟨0, 0, 1280, 720⟩, some ⟨7⟩, some ⟨42⟩⟩

/-- The state a successful `OnCreate` in `envGood` leaves. -/
def stateCreated : State :=
  ⟨some ⟨1280, 720, some ⟨7⟩, some ⟨42⟩⟩, some ⟨7, "com.oblivion.launcher/system_color"⟩⟩

/-- A message environment whose controller handles nothing and whose base
handler answers 0. -/
def envQuiet : MsgEnv := ⟨fun _ _ _ _ => none, fun _ _ _ _ => 0⟩

/-- A message environment whose controller answers every message with 5. -/
def envHandled : MsgEnv := ⟨fun _ _ _ _ => some 5, fun _ _ _ _ => 0⟩

/-! ## Machine integer facts -/

theorem DWORD_lt (n : Nat) : DWORD n < 2 ^ 32 := by
  unfold DWORD
  exact Nat.mod_lt _ (by norm_num)

theorem DWORD_of_lt {n : Nat} (h : n < 2 ^ 32) : DWORD n = n := by
  unfold DWORD
  exact Nat.mod_eq_of_lt h

theorem static_cast_int64_of_lt {u : Nat} (h : u < 2 ^ 32) : static_cast_int64 u = (u : Int) := by
  have h64 : u % 2 ^ 64 = u := Nat.mod_eq_of_lt (by omega)
  unfold static_cast_int64
  rw [h64, if_pos (by omega)]

theorem fallbackLiteral_eq : fallbackLiteral = 4284960932 := by
  unfold fallbackLiteral
  norm_num

theorem static_cast_int64_fallback : static_cast_int64 fallbackLiteral = 4284960932 := by
  rw [fallbackLiteral_eq, static_cast_int64_of_lt (by norm_num)]
  norm_num

/-! ## The bridge handler -/

theorem handler_getAccentColor (os : OS) (args : Option EncodableValue) :
    methodCallHandler os ⟨"getAccentColor", args⟩ =
      if SUCCEEDED (os.DwmGetColorizationColor 0 false).1 then
        [ResultCall.Success
          (EncodableValue.int64 ((DWORD (os.DwmGetColorizationColor 0 false).2.1 : Nat) : Int))]
      else [ResultCall.Success (EncodableValue.int64 4284960932)] := by
  have h0 : DWORD 0 = 0 := by decide
  simp only [methodCallHandler, if_true, h0, static_cast_int64_fallback,
    static_cast_int64_of_lt (DWORD_lt _)]

theorem handler_other (os : OS) (call : MethodCall) (h : call.method_name ≠ "getAccentColor") :
    methodCallHandler os call = [ResultCall.NotImplemented] := by
  simp only [methodCallHandler, if_neg h]

/-- C1: a call named exactly "getAccentColor", made while the accent-colour
query succeeds and yields the 32 bit value `c`, is answered by one `Success`
whose payload is the 64 bit integer equal to `c`. -/
theorem getAccentColor_replies_live_value (os : OS) (args : Option EncodableValue)
    (hr : Int) (c : Nat) (blend : Bool) (hc : c < 2 ^ 32)
    (hq : os.DwmGetColorizationColor 0 false = (hr, c, blend))
    (hs : SUCCEEDED hr = true) :
    methodCallHandler os ⟨"getAccentColor", args⟩ =
      [ResultCall.Success (EncodableValue.int64 (c : Int))] := by
  rw [handler_getAccentColor, hq]
  simp only [hs, if_true, DWORD_of_lt hc]

theorem getAccentColor_replies_live_value_witness :
    methodCallHandler osAccent ⟨"getAccentColor", none⟩ =
      [ResultCall.Success (EncodableValue.int64 ((0xC40078D4 : Nat) : Int))] :=
  getAccentColor_replies_live_value osAccent none 0 0xC40078D4 true (by norm_num) rfl rfl

/-- C2: a call named exactly "getAccentColor" made while the accent-colour
query fails is answered by one `Success` carrying `0xFF6750A4`; and whatever
the query does, the answer is one `Success` carrying the colour the system
gave or `0xFF6750A4`, never an `Error`. -/
theorem getAccentColor_falls_back (os : OS) (args : Option EncodableValue) :
    (SUCCEEDED (os.DwmGetColorizationColor 0 false).1 = false →
      methodCallHandler os ⟨"getAccentColor", args⟩ =
        [ResultCall.Success (EncodableValue.int64 0xFF6750A4)]) ∧
    (∃ v : Int,
      methodCallHandler os ⟨"getAccentColor", args⟩ =
        [ResultCall.Success (EncodableValue.int64 v)] ∧
      (v = ((DWORD (os.DwmGetColorizationColor 0 false).2.1 : Nat) : Int) ∨ v = 0xFF6750A4)) ∧
    (∀ code message details,
      ResultCall.Error code message details ∉ methodCallHandler os ⟨"getAccentColor", args⟩) := by
  rw [handler_getAccentColor]
  cases hs : SUCCEEDED (os.DwmGetColorizationColor 0 false).1
  · refine ⟨fun _ => by simp, ⟨4284960932, by simp, Or.inr (by norm_num)⟩, ?_⟩
    intro code message details hmem
    simp at hmem
  · refine ⟨fun h => by simp at h, ⟨_, by simp, Or.inl rfl⟩, ?_⟩
    intro code message details hmem
    simp at hmem

theorem getAccentColor_falls_back_witness :
    methodCallHandler osFailing ⟨"getAccentColor", some EncodableValue.null⟩ =
      [ResultCall.Success (EncodableValue.int64 0xFF6750A4)] :=
  (getAccentColor_falls_back osFailing (some EncodableValue.null)).1 rfl

/-- C3: a call whose method name is not exactly "getAccentColor" is answered
by one `NotImplemented` and by nothing else, whatever the arguments and
whatever the system does; the empty name, a name in another letter case and
names with a character added in front or behind are such names. -/
theorem other_method_not_implemented (os : OS) (name : String) (args : Option EncodableValue)
    (h : name ≠ "getAccentColor") :
    methodCallHandler os ⟨name, args⟩ = [ResultCall.NotImplemented] ∧
    (∀ v, ResultCall.Success v ∉ methodCallHandler os ⟨name, args⟩) ∧
    (∀ code message details,
      ResultCall.Error code message details ∉ methodCallHandler os ⟨name, args⟩) := by
  have hn : methodCallHandler os ⟨name, args⟩ = [ResultCall.NotImplemented] :=
    handler_other os ⟨name, args⟩ h
  rw [hn]
  refine ⟨rfl, ?_, ?_⟩
  · intro v hmem
    simp at hmem
  · intro code message details hmem
    simp at hmem

theorem other_method_not_implemented_witness :
    methodCallHandler osAccent ⟨"", none⟩ = [ResultCall.NotImplemented] ∧
    methodCallHandler osAccent ⟨"getaccentcolor", none⟩ = [ResultCall.NotImplemented] ∧
    methodCallHandler osFailing ⟨" getAccentColor", some (EncodableValue.int32 1)⟩ =
      [ResultCall.NotImplemented] ∧
    methodCallHandler osFailing ⟨"getAccentColor2", none⟩ = [ResultCall.NotImplemented] :=
  ⟨(other_method_not_implemented osAccent "" none (by decide)).1,
   (other_method_not_implemented osAccent "getaccentcolor" none (by decide)).1,
   (other_method_not_implemented osFailing " getAccentColor"
      (some (EncodableValue.int32 1)) (by decide)).1,
   (other_method_not_implemented osFailing "getAccentColor2" none (by decide)).1⟩

/-- C4: the answer does not depend on the argument payload: two calls named
"getAccentColor" with any two payloads (absent or any value) under the same
outcome of the accent-colour query get equal answers, and the answer to any
call is a function of the method name and of that outcome only. -/
theorem reply_independent_of_arguments :
    (∀ (os : OS) (args1 args2 : Option EncodableValue),
      methodCallHandler os ⟨"getAccentColor", args1⟩ =
        methodCallHandler os ⟨"getAccentColor", args2⟩) ∧
    (∃ f : String → Int × Nat × Bool → List ResultCall,
      ∀ (os : OS) (call : MethodCall),
        methodCallHandler os call = f call.method_name (os.DwmGetColorizationColor 0 false)) := by
  refine ⟨fun os args1 args2 => ?_, ?_⟩
  · simp only [methodCallHandler]
  · refine ⟨fun name out => methodCallHandler ⟨fun _ _ => out⟩ ⟨name, none⟩, ?_⟩
    intro os call
    have h0 : DWORD 0 = 0 := by decide
    simp only [methodCallHandler, h0]

/-- C6: every call is answered exactly once: the handler makes one invocation
on the result object, a `Success`, an `Error` or a `NotImplemented`, and then
returns. -/
theorem handler_replies_exactly_once (os : OS) (call : MethodCall) :
    (methodCallHandler os call).length = 1 ∧
    ∃ r, methodCallHandler os call = [r] := by
  by_cases hn : call.method_name = "getAccentColor"
  · cases hs : SUCCEEDED (os.DwmGetColorizationColor (DWORD 0) false).1 <;>
      simp [methodCallHandler, hn, hs]
  · simp [methodCallHandler, hn]

/-- C10: every integer that "getAccentColor" replies with lies between 0 and
2^32 - 1: the colour of the system is zero-extended to 64 bits, also when its
top bit is set, and the fallback literal `0xFF6750A4` is replied as
4284960932. -/
theorem getAccentColor_value_range (os : OS) (args : Option EncodableValue) :
    (∀ v, ResultCall.Success v ∈ methodCallHandler os ⟨"getAccentColor", args⟩ →
      ∃ n : Int, v = EncodableValue.int64 n ∧ 0 ≤ n ∧ n ≤ 2 ^ 32 - 1) ∧
    (SUCCEEDED (os.DwmGetColorizationColor 0 false).1 = true →
      methodCallHandler os ⟨"getAccentColor", args⟩ =
        [ResultCall.Success (EncodableValue.int64
          (((os.DwmGetColorizationColor 0 false).2.1 % 2 ^ 32 : Nat) : Int))]) ∧
    (SUCCEEDED (os.DwmGetColorizationColor 0 false).1 = false →
      methodCallHandler os ⟨"getAccentColor", args⟩ =
        [ResultCall.Success (EncodableValue.int64 4284960932)]) ∧
    static_cast_int64 fallbackLiteral = 4284960932 := by
  rw [handler_getAccentColor]
  have hlt := DWORD_lt (os.DwmGetColorizationColor 0 false).2.1
  refine ⟨?_, ?_, ?_, static_cast_int64_fallback⟩
  · intro v hmem
    cases hs : SUCCEEDED (os.DwmGetColorizationColor 0 false).1
    · rw [hs] at hmem
      simp at hmem
      exact ⟨4284960932, hmem, by norm_num, by norm_num⟩
    · rw [hs] at hmem
      simp at hmem
      exact ⟨_, hmem, by omega, by omega⟩
  · intro hs
    simp [hs, DWORD]
  · intro hs
    simp [hs]

theorem getAccentColor_value_range_witness :
    (∃ n : Int, EncodableValue.int64 ((0xC40078D4 : Nat) : Int) = EncodableValue.int64 n ∧
      0 ≤ n ∧ n ≤ 2 ^ 32 - 1) ∧
    methodCallHandler osAccent ⟨"getAccentColor", none⟩ =
      [ResultCall.Success (EncodableValue.int64 3288365268)] ∧
    methodCallHandler osFailing ⟨"getAccentColor", none⟩ =
      [ResultCall.Success (EncodableValue.int64 4284960932)] :=
  ⟨(getAccentColor_value_range osAccent none).1 _
      (by rw [handler_getAccentColor]; exact List.mem_singleton.mpr rfl),
   (getAccentColor_value_range osAccent none).2.1 rfl,
   (getAccentColor_value_range osFailing none).2.2.1 rfl⟩

/-! ## The window life cycle -/

theorem OnCreate_base_fails (env : CreateEnv) (s : State)
    (hb : env.Win32Window_OnCreate = false) :
    OnCreate env s = Except.ok (false, s, [Event.Win32Window_OnCreate]) := by
  simp [OnCreate, hb]

theorem OnCreate_no_engine (env : CreateEnv) (s : State)
    (hb : env.Win32Window_OnCreate = true) (he : env.engine = none) :
    OnCreate env s = Except.ok (false,
      { s with flutter_controller_ := some ⟨env.clientArea.right - env.clientArea.left,
          env.clientArea.bottom - env.clientArea.top, env.engine, env.view⟩ },
      [Event.Win32Window_OnCreate, Event.GetClientArea, Event.CreateController
        (env.clientArea.right - env.clientArea.left)
        (env.clientArea.bottom - env.clientArea.top)]) := by
  simp [OnCreate, hb, he, controllerEngine]

theorem OnCreate_no_view (env : CreateEnv) (s : State) (e : FlutterEngine)
    (hb : env.Win32Window_OnCreate = true) (he : env.engine = some e) (hv : env.view = none) :
    OnCreate env s = Except.ok (false,
      { s with flutter_controller_ := some ⟨env.clientArea.right - env.clientArea.left,
          env.clientArea.bottom - env.clientArea.top, env.engine, env.view⟩ },
      [Event.Win32Window_OnCreate, Event.GetClientArea, Event.CreateController
        (env.clientArea.right - env.clientArea.left)
        (env.clientArea.bottom - env.clientArea.top)]) := by
  simp [OnCreate, hb, he, hv, controllerEngine, controllerView]

theorem OnCreate_succeeds (env : CreateEnv) (s : State) (e : FlutterEngine) (v : FlutterView)
    (hb : env.Win32Window_OnCreate = true) (he : env.engine = some e) (hv : env.view = some v) :
    OnCreate env s = Except.ok (true,
      ⟨some ⟨env.clientArea.right - env.clientArea.left,
          env.clientArea.bottom - env.clientArea.top, env.engine, env.view⟩,
        some ⟨e.messenger, "com.oblivion.launcher/system_color"⟩⟩,
      [Event.Win32Window_OnCreate, Event.GetClientArea, Event.CreateController
        (env.clientArea.right - env.clientArea.left)
        (env.clientArea.bottom - env.clientArea.top),
       Event.RegisterPlugins,
       Event.SetMethodCallHandler "com.oblivion.launcher/system_color",
       Event.SetChildContent v.nativeWindow, Event.SetNextFrameCallback,
       Event.ForceRedraw]) := by
  simp [OnCreate, hb, he, hv, controllerEngine, controllerView, SetupMethodChannel, channelName]

theorem OnCreate_envGood :
    OnCreate envGood State.initial = Except.ok (true, stateCreated,
      [Event.Win32Window_OnCreate, Event.GetClientArea, Event.CreateController 1280 720,
       Event.RegisterPlugins,
       Event.SetMethodCallHandler "com.oblivion.launcher/system_color",
       Event.SetChildContent 42, Event.SetNextFrameCallback, Event.ForceRedraw]) := by
  rfl

/-- C5, as stated, fails: after a successful `OnCreate` from the initial state
and the `OnDestroy` that follows, the static `g_system_color_channel` still
holds the channel. -/
theorem release_on_destroy_counterexample :
    (∃ trace, OnCreate envGood State.initial = Except.ok (true, stateCreated, trace)) ∧
    (OnDestroy stateCreated).1.g_system_color_channel =
      some ⟨7, "com.oblivion.launcher/system_color"⟩ ∧
    ¬ (∀ s1 trace, OnCreate envGood State.initial = Except.ok (true, s1, trace) →
        (OnDestroy s1).1.flutter_controller_ = none ∧
        (OnDestroy s1).1.g_system_color_channel = none) := by
  refine ⟨⟨_, OnCreate_envGood⟩, rfl, ?_⟩
  intro h
  have h2 := (h _ _ OnCreate_envGood).2
  revert h2
  decide

/-- C5, amended: after `OnCreate` has succeeded and `OnDestroy` has then run,
the engine controller is released, while the bridge channel created during
`OnCreate` is still held by the static `g_system_color_channel`; at program
start neither is held. -/
theorem controller_released_channel_kept (env : CreateEnv) (s s1 : State) (trace : List Event)
    (h : OnCreate env s = Except.ok (true, s1, trace)) :
    (∃ c, s1.flutter_controller_ = some c) ∧
    (OnDestroy s1).1.flutter_controller_ = none ∧
    (∃ e, env.engine = some e ∧
      s1.g_system_color_channel = some ⟨e.messenger, "com.oblivion.launcher/system_color"⟩ ∧
      (OnDestroy s1).1.g_system_color_channel =
        some ⟨e.messenger, "com.oblivion.launcher/system_color"⟩) ∧
    State.initial.flutter_controller_ = none ∧
    State.initial.g_system_color_channel = none := by
  cases hb : env.Win32Window_OnCreate with
  | false =>
    rw [OnCreate_base_fails env s hb] at h
    simp at h
  | true =>
    cases he : env.engine with
    | none =>
      rw [OnCreate_no_engine env s hb he] at h
      simp at h
    | some e =>
      cases hv : env.view with
      | none =>
        rw [OnCreate_no_view env s e hb he hv] at h
        simp at h
      | some v =>
        rw [OnCreate_succeeds env s e v hb he hv] at h
        simp only [Except.ok.injEq, Prod.mk.injEq, true_and] at h
        obtain ⟨hs1, -⟩ := h
        subst hs1
        refine ⟨⟨_, rfl⟩, rfl, ⟨e, rfl, rfl, rfl⟩, rfl, rfl⟩

theorem controller_released_channel_kept_witness :
    (OnDestroy stateCreated).1.flutter_controller_ = none ∧
    (OnDestroy stateCreated).1.g_system_color_channel =
      some ⟨7, "com.oblivion.launcher/system_color"⟩ :=
  ⟨(controller_released_channel_kept envGood State.initial stateCreated _ OnCreate_envGood).2.1,
   by
    obtain ⟨e, he, -, hd⟩ :=
      (controller_released_channel_kept envGood State.initial stateCreated _
        OnCreate_envGood).2.2.1
    have h7 : e = ⟨7⟩ := by
      have : some (⟨7⟩ : FlutterEngine) = some e := he
      exact (Option.some.inj this).symm
    rw [hd, h7]⟩

/-- C7: `OnCreate` returns, and returns true exactly when
`Win32Window::OnCreate` succeeds and the new controller has an engine and a
view; a call that returns true sets the handler of the channel
"com.oblivion.launcher/system_color" once, a call that returns false sets no
channel handler and leaves the static channel as it was, and when
`Win32Window::OnCreate` fails no controller is created. -/
theorem OnCreate_returns (env : CreateEnv) (s : State) :
    ∃ s1 trace,
      OnCreate env s =
        Except.ok (env.Win32Window_OnCreate && env.engine.isSome && env.view.isSome,
          s1, trace) ∧
      trace.count (Event.SetMethodCallHandler "com.oblivion.launcher/system_color") =
        (if (env.Win32Window_OnCreate && env.engine.isSome && env.view.isSome) = true
          then 1 else 0) ∧
      (∀ name, Event.SetMethodCallHandler name ∈ trace →
        name = "com.oblivion.launcher/system_color") ∧
      ((env.Win32Window_OnCreate && env.engine.isSome && env.view.isSome) = false →
        s1.g_system_color_channel = s.g_system_color_channel) ∧
      (env.Win32Window_OnCreate = true →
        ∃ c, s1.flutter_controller_ = some c ∧ c.engine = env.engine ∧ c.view = env.view ∧
          trace.count (Event.CreateController c.width c.height) = 1) ∧
      (env.Win32Window_OnCreate = false →
        s1 = s ∧ ∀ width height, Event.CreateController width height ∉ trace) := by
  cases hb : env.Win32Window_OnCreate with
  | false =>
    refine ⟨_, _, OnCreate_base_fails env s hb, ?_⟩
    simp
  | true =>
    cases he : env.engine with
    | none =>
      have h := OnCreate_no_engine env s hb he
      rw [he] at h
      refine ⟨_, _, h, ?_⟩
      simp
    | some e =>
      cases hv : env.view with
      | none =>
        have h := OnCreate_no_view env s e hb he hv
        rw [he, hv] at h
        refine ⟨_, _, h, ?_⟩
        simp
      | some v =>
        have h := OnCreate_succeeds env s e v hb he hv
        rw [he, hv] at h
        refine ⟨_, _, h, ?_⟩
        simp

theorem OnCreate_returns_witness :
    (∃ s1 trace, OnCreate envGood State.initial = Except.ok (true, s1, trace) ∧
      trace.count (Event.SetMethodCallHandler "com.oblivion.launcher/system_color") = 1 ∧
      ∃ c, s1.flutter_controller_ = some c ∧ c.engine = some ⟨7⟩ ∧ c.view = some ⟨42⟩) ∧
    (∃ s1 trace, OnCreate envBaseFails stateCreated = Except.ok (false, s1, trace) ∧
      trace.count (Event.SetMethodCallHandler "com.oblivion.launcher/system_color") = 0 ∧
      s1 = stateCreated) := by
  obtain ⟨s1, trace, h1, h2, -, -, h5, -⟩ := OnCreate_returns envGood State.initial
  obtain ⟨t1, trace1, k1, k2, -, -, -, k6⟩ := OnCreate_returns envBaseFails stateCreated
  obtain ⟨c, hc1, hc2, hc3, -⟩ := h5 rfl
  exact ⟨⟨s1, trace, h1, h2, c, hc1, hc2, hc3⟩, ⟨t1, trace1, k1, k2, (k6 rfl).1⟩⟩

/-! ## Message routing -/

/-- Routing on the paths that do not reach the null `engine()`: while the
controller is present, a message for which the controller's top-level window
procedure returns a result is answered with that result, with no font reload
and no call of the base handler; a message for which it returns none is
answered with the base handler's result for the same arguments, with no font
reload when the message is not `WM_FONTCHANGE`, and with one reload of the
engine's system fonts before the base handler when the message is
`WM_FONTCHANGE` and `engine()` is not null. -/
theorem MessageHandler_routing_with_engine (env : MsgEnv) (s : State) (c : FlutterViewController)
    (hwnd message wparam : Nat) (lparam : Int) (hc : s.flutter_controller_ = some c) :
    (∀ r, env.HandleTopLevelWindowProc hwnd message wparam lparam = some r →
      MessageHandler env s hwnd message wparam lparam =
        Except.ok (r, [Event.HandleTopLevelWindowProc hwnd message wparam lparam])) ∧
    (env.HandleTopLevelWindowProc hwnd message wparam lparam = none →
      (message ≠ WM_FONTCHANGE →
        MessageHandler env s hwnd message wparam lparam =
          Except.ok (env.Win32Window_MessageHandler hwnd message wparam lparam,
            [Event.HandleTopLevelWindowProc hwnd message wparam lparam,
             Event.Win32Window_MessageHandler hwnd message wparam lparam])) ∧
      (message = WM_FONTCHANGE → c.engine.isSome = true →
        MessageHandler env s hwnd message wparam lparam =
          Except.ok (env.Win32Window_MessageHandler hwnd message wparam lparam,
            [Event.HandleTopLevelWindowProc hwnd message wparam lparam,
             Event.ReloadSystemFonts,
             Event.Win32Window_MessageHandler hwnd message wparam lparam]))) := by
  refine ⟨?_, ?_⟩
  · intro r hr
    simp [MessageHandler, hc, hr]
  · intro hnone
    refine ⟨?_, ?_⟩
    · intro hm
      simp [MessageHandler, hc, hnone, hm]
    · intro hm he
      obtain ⟨e, he⟩ := Option.isSome_iff_exists.mp he
      subst hm
      simp [MessageHandler, hc, hnone, controllerEngine, he]

theorem MessageHandler_routing_with_engine_example :
    MessageHandler envHandled stateCreated 1 WM_FONTCHANGE 0 0 =
      Except.ok (5, [Event.HandleTopLevelWindowProc 1 WM_FONTCHANGE 0 0]) ∧
    MessageHandler envQuiet stateCreated 1 15 0 0 =
      Except.ok (0, [Event.HandleTopLevelWindowProc 1 15 0 0,
        Event.Win32Window_MessageHandler 1 15 0 0]) ∧
    MessageHandler envQuiet stateCreated 1 WM_FONTCHANGE 0 0 =
      Except.ok (0, [Event.HandleTopLevelWindowProc 1 WM_FONTCHANGE 0 0,
        Event.ReloadSystemFonts, Event.Win32Window_MessageHandler 1 WM_FONTCHANGE 0 0]) :=
  ⟨(MessageHandler_routing_with_engine envHandled stateCreated _ 1 WM_FONTCHANGE 0 0 rfl).1 5 rfl,
   ((MessageHandler_routing_with_engine envQuiet stateCreated _ 1 15 0 0 rfl).2 rfl).1 (by decide),
   ((MessageHandler_routing_with_engine envQuiet stateCreated _ 1 WM_FONTCHANGE 0 0 rfl).2 rfl).2 rfl rfl⟩

/-- C9, the code at the failing input: with no controller held, at program
start or after `OnDestroy`, a `WM_FONTCHANGE` makes `MessageHandler`
dereference the null `flutter_controller_`; every other message goes to the
base handler without touching the controller. -/
theorem MessageHandler_without_controller (env : MsgEnv)
    (channel : Option MethodChannel) (hwnd message wparam : Nat) (lparam : Int) :
    MessageHandler env ⟨none, channel⟩ hwnd WM_FONTCHANGE wparam lparam =
      Except.error Fault.nullController ∧
    MessageHandler env (OnDestroy stateCreated).1 hwnd WM_FONTCHANGE wparam lparam =
      Except.error Fault.nullController ∧
    MessageHandler env State.initial hwnd WM_FONTCHANGE wparam lparam =
      Except.error Fault.nullController ∧
    (message ≠ WM_FONTCHANGE →
      MessageHandler env ⟨none, channel⟩ hwnd message wparam lparam =
        Except.ok (env.Win32Window_MessageHandler hwnd message wparam lparam,
          [Event.Win32Window_MessageHandler hwnd message wparam lparam])) := by
  refine ⟨rfl, rfl, rfl, ?_⟩
  intro hm
  simp [MessageHandler, hm]

theorem MessageHandler_without_controller_witness :
    MessageHandler envQuiet State.initial 1 WM_FONTCHANGE 0 0 =
      Except.error Fault.nullController ∧
    MessageHandler envQuiet State.initial 1 15 0 0 =
      Except.ok (0, [Event.Win32Window_MessageHandler 1 15 0 0]) :=
  ⟨(MessageHandler_without_controller envQuiet none 1 15 0 0).2.2.1,
   (MessageHandler_without_controller envQuiet none 1 15 0 0).2.2.2 (by decide)⟩

end Oblivion
